import Mathlib

/-!
Shallow embedding of the s3-gateway response-construction logic
(src/response.rs) and of the listener runtime entry point (src/main.rs).

An HTTP response is modelled as its status code, its header list in
insertion order, and its body as a byte sequence.  The hyper response
builder is modelled by `buildResponse`, which fails exactly when some
header value is invalid, matching the validity check of the http crate
used by hyper (`HeaderValue::from_shared`): every byte must be 9 (tab)
or lie in 32..=255 excluding 127.  Since every byte of a multi-byte
UTF-8 character is at least 128, the byte-level check coincides with
the same check applied character by character, which is how
`headerValueValid` states it.
-/

/-- An HTTP response: status code, headers in insertion order, body bytes. -/
structure Response where
  status : Nat
  headers : List (String × String)
  body : List Nat
deriving Repr, DecidableEq

/-- Byte sequence of an ASCII string.  All fixed body texts in
src/response.rs are ASCII, so character codes coincide with UTF-8 bytes. -/
def strBytes (s : String) : List Nat :=
  s.data.map Char.toNat

/-- Validity of a header value, as checked by the http crate when hyper's
response builder ingests a header: tab, or a code at least 32 other than
DEL (127). -/
def headerValueValid (s : String) : Bool :=
  s.data.all (fun c => decide (c.toNat = 9 ∨ (32 ≤ c.toNat ∧ c.toNat ≠ 127)))

/-- hyper's `Response::builder()....body(...)`: returns the assembled
response, or an error when a header value is invalid (the error that the
source code propagates with `?`). -/
def buildResponse (status : Nat) (headers : List (String × String)) (body : List Nat) :
    Except String Response :=
  if headers.all (fun p => headerValueValid p.2) then
    Except.ok { status := status, headers := headers, body := body }
  else
    Except.error "invalid header value"

/-- The body text chosen by `easy_response` for each status code
(src/response.rs lines 19-26). -/
def statusBody (status : Nat) : String :=
  if status = 200 then "OK"
  else if status = 400 then "Bad Request"
  else if status = 404 then "Not Found"
  else if status = 405 then "Method Not Allowed"
  else if status = 500 then "Internal Server Error"
  else "Unknown"

/-- `easy_response` (src/response.rs lines 18-32): a response with the
given status, `Content-Type: text/plain`, and the fixed body text. -/
def easy_response (status : Nat) : Except String Response :=
  buildResponse status [("Content-Type", "text/plain")] (strBytes (statusBody status))

/-- Split a character list on a separator character; structural-recursion
counterpart of splitting a string, used to model `Path` component and
extension extraction. -/
def splitOnChar : List Char → Char → List (List Char)
  | [], _ => [[]]
  | c :: cs, sep =>
    if c = sep then [] :: splitOnChar cs sep
    else
      match splitOnChar cs sep with
      | [] => [[c]]
      | g :: gs => (c :: g) :: gs

/-- The file name of a key: the part after the last path separator. -/
def fileName (key : String) : List Char :=
  (splitOnChar key.data '/').getLastD []

/-- `Path::extension()` of the Rust standard library, applied to the key as
`mime_guess::from_path` does: the portion of the file name after the final
dot; none when there is no dot, or when the only dot is the leading one of
a hidden file such as `.gitignore`. -/
def extensionOf (key : String) : Option (List Char) :=
  match splitOnChar (fileName key) '.' with
  | [] => none
  | [_] => none
  | first :: rest =>
    if first = [] ∧ rest.length = 1 then none
    else some (rest.getLastD [])

/-- ASCII lower-casing of one character, as mime_guess's case-insensitive
extension lookup performs. -/
def lowerChar (c : Char) : Char :=
  if 65 ≤ c.toNat ∧ c.toNat ≤ 90 then Char.ofNat (c.toNat + 32) else c

/-- Modelled from the spec: the extension-to-MIME mapping table of the
external mime_guess collaborator ("mapping table: standard extension →
MIME type"), restricted to a representative set of standard extensions. -/
def mimeTable : List (String × String) :=
  [("html", "text/html"), ("htm", "text/html"), ("css", "text/css"),
   ("js", "application/javascript"), ("json", "application/json"),
   ("png", "image/png"), ("jpg", "image/jpeg"), ("jpeg", "image/jpeg"),
   ("gif", "image/gif"), ("svg", "image/svg+xml"), ("txt", "text/plain"),
   ("pdf", "application/pdf"), ("xml", "text/xml")]

/-- First-match association lookup over the mapping table. -/
def lookupTable : List (String × String) → String → Option String
  | [], _ => none
  | (e, m) :: rest, x => if x = e then some m else lookupTable rest x

/-- `mime_guess::from_path(key).first()`: the MIME type of the key's file
extension, case-insensitively, when the table knows it. -/
def mimeGuessFromPath (key : String) : Option String :=
  match extensionOf key with
  | none => none
  | some e => lookupTable mimeTable (String.mk (e.map lowerChar))

/-- `.first_or(mime::TEXT_PLAIN)` as applied in `s3_object_response`:
the guessed MIME type, falling back to `text/plain`. -/
def contentTypeFor (key : String) : String :=
  (mimeGuessFromPath key).getD "text/plain"

/-- Outcome of the S3 `get_object` call together with the body collection,
exactly as branched on in `s3_object_response` (src/response.rs lines
40-51): the get succeeds and the streamed body collects to bytes; the get
succeeds but collecting the body fails; the get fails with `NoSuchKey`; or
the get fails with any other error. -/
inductive GetObjectResult where
  | found (bytes : List Nat)
  | collectError (detail : String)
  | noSuchKey
  | otherError (detail : String)
deriving Repr, DecidableEq

/-- `get_s3_object_error` (src/response.rs lines 62-79).  The boolean is
`error.into_service_error().is_no_such_key()`. -/
def get_s3_object_error (isNoSuchKey : Bool) (redirect : Option String) :
    Except String Response :=
  if isNoSuchKey then
    match redirect with
    | some p =>
        buildResponse 302 [("Content-Type", "text/plain"), ("Location", p)]
          (strBytes "Found")
    | none => easy_response 404
  else easy_response 500

/-- `s3_object_response` (src/response.rs lines 34-60), with the S3 client
interaction abstracted into its `GetObjectResult`. -/
def s3_object_response (outcome : GetObjectResult) (key : String)
    (redirect : Option String) : Except String Response :=
  match outcome with
  | .found b => buildResponse 200 [("Content-Type", contentTypeFor key)] b
  | .collectError _ => easy_response 500
  | .noSuchKey => get_s3_object_error true redirect
  | .otherError _ => get_s3_object_error false redirect

/-- Whether a response carries a header of the given name. -/
def hasHeader (resp : Response) (name : String) : Bool :=
  resp.headers.any (fun p => p.1 == name)

/-- Modelled from the spec: the listener internals behind `server::Server`
(the server module is not under src).  Per the spec a listener runs
independently through Starting → Serving and terminates as Stopped(clean)
or Failed(error) after some number of suspension points; it is modelled by
that number of polls and its eventual outcome. -/
structure Listener where
  steps : Nat
  outcome : Except String Unit

/-- `futures_util::future::join` as used in main (src/main.rs line 19):
each round polls both still-pending listeners; the joined future completes
once both listeners have terminated, yielding both outcomes.  The first
argument is fuel bounding the number of rounds. -/
def joinRun : Nat → Nat → Nat → Except String Unit × Except String Unit →
    Option (Except String Unit × Except String Unit)
  | 0, _, _, _ => none
  | f + 1, s1, s2, out =>
    if s1 = 0 ∧ s2 = 0 then some out
    else joinRun f (s1 - 1) (s2 - 1) out

/-- The join performed by `main` over the gateway and management listeners:
run both to completion and collect one outcome per listener. -/
def mainJoin (l1 l2 : Listener) : Option (Except String Unit × Except String Unit) :=
  joinRun (l1.steps + l2.steps + 1) l1.steps l2.steps (l1.outcome, l2.outcome)

theorem headerValueValid_text_plain : headerValueValid "text/plain" = true := by decide

theorem lookupTable_valid (t : List (String × String))
    (ht : ∀ p ∈ t, headerValueValid p.2 = true) (x v : String)
    (hl : lookupTable t x = some v) : headerValueValid v = true := by
  induction t with
  | nil => simp [lookupTable] at hl
  | cons hd tl ih =>
    obtain ⟨e, m⟩ := hd
    simp only [lookupTable] at hl
    by_cases hx : x = e
    · rw [if_pos hx] at hl
      injection hl with hv
      exact hv ▸ ht (e, m) (List.mem_cons_self _ _)
    · rw [if_neg hx] at hl
      exact ih (fun p hp => ht p (List.mem_cons_of_mem _ hp)) hl

theorem mimeTable_valid : ∀ p ∈ mimeTable, headerValueValid p.2 = true := by decide

theorem contentTypeFor_valid (key : String) :
    headerValueValid (contentTypeFor key) = true := by
  unfold contentTypeFor
  cases hg : mimeGuessFromPath key with
  | none => decide
  | some v =>
    simp only [Option.getD_some]
    unfold mimeGuessFromPath at hg
    cases he : extensionOf key with
    | none => rw [he] at hg; exact Option.noConfusion hg
    | some e =>
      rw [he] at hg
      exact lookupTable_valid mimeTable mimeTable_valid _ v hg

theorem easy_response_eq (c : Nat) :
    easy_response c =
      Except.ok ⟨c, [("Content-Type", "text/plain")], strBytes (statusBody c)⟩ := rfl

theorem s3_found_eq (b : List Nat) (key : String) (r : Option String) :
    s3_object_response (.found b) key r =
      Except.ok ⟨200, [("Content-Type", contentTypeFor key)], b⟩ := by
  have h := contentTypeFor_valid key
  simp [s3_object_response, buildResponse, h]

theorem s3_collect_eq (d key : String) (r : Option String) :
    s3_object_response (.collectError d) key r = easy_response 500 := rfl

theorem s3_other_eq (d key : String) (r : Option String) :
    s3_object_response (.otherError d) key r = easy_response 500 := rfl

theorem s3_nsk_none (key : String) :
    s3_object_response .noSuchKey key none = easy_response 404 := rfl

theorem s3_nsk_some_valid (key p : String) (h : headerValueValid p = true) :
    s3_object_response .noSuchKey key (some p) =
      Except.ok ⟨302, [("Content-Type", "text/plain"), ("Location", p)],
        strBytes "Found"⟩ := by
  simp [s3_object_response, get_s3_object_error, buildResponse, h,
    headerValueValid_text_plain]

theorem s3_nsk_some_invalid (key p : String) (h : headerValueValid p = false) :
    s3_object_response .noSuchKey key (some p) =
      Except.error "invalid header value" := by
  simp [s3_object_response, get_s3_object_error, buildResponse, h,
    headerValueValid_text_plain]

theorem joinRun_complete (f : Nat) :
    ∀ (s1 s2 : Nat) (out : Except String Unit × Except String Unit),
      s1 ≤ f → s2 ≤ f → joinRun (f + 1) s1 s2 out = some out := by
  induction f with
  | zero =>
    intro s1 s2 out h1 h2
    have hs1 : s1 = 0 := Nat.le_zero.mp h1
    have hs2 : s2 = 0 := Nat.le_zero.mp h2
    subst hs1; subst hs2
    simp [joinRun]
  | succ f ih =>
    intro s1 s2 out h1 h2
    by_cases h : s1 = 0 ∧ s2 = 0
    · simp [joinRun, h]
    · simp only [joinRun, if_neg h]
      exact ih (s1 - 1) (s2 - 1) out (by omega) (by omega)

/-- Claim C1: for every Found outcome, s3_object_response returns status
200 with body equal to the fetched bytes (also when empty) and a
Content-Type header equal to the MIME type guessed from the key's file
extension, falling back to text/plain when the guess yields nothing
(no extension, or an unrecognized one). -/
theorem found_outcome_response (bytes : List Nat) (key : String)
    (redirect : Option String) :
    s3_object_response (GetObjectResult.found bytes) key redirect =
      Except.ok ⟨200, [("Content-Type", (mimeGuessFromPath key).getD "text/plain")],
        bytes⟩ ∧
    (mimeGuessFromPath key = none → contentTypeFor key = "text/plain") := by
  constructor
  · exact s3_found_eq bytes key redirect
  · intro h
    simp [contentTypeFor, h]

/-- Witness for claim C1 at a Found outcome with empty body and an
extensionless key. -/
theorem found_outcome_response_witness :
    s3_object_response (GetObjectResult.found []) "noext" none =
      Except.ok ⟨200, [("Content-Type", (mimeGuessFromPath "noext").getD "text/plain")],
        []⟩ ∧
    contentTypeFor "noext" = "text/plain" :=
  ⟨(found_outcome_response [] "noext" none).1,
   (found_outcome_response [] "noext" none).2 (by decide)⟩

/-- Claim C2 counterexample: a configured redirect path containing a
carriage return is an invalid header value, so the NotFound outcome does
not produce a 302 response; the builder error is propagated instead. -/
theorem notfound_redirect_cr_propagates :
    s3_object_response GetObjectResult.noSuchKey "index.html" (some "/404\r.html") =
      Except.error "invalid header value" := rfl

/-- Claim C2 (amended): for every NotFound outcome whose configured
redirect path is a valid header value, the response has status 302,
Location equal to the path, body "Found", and Content-Type text/plain. -/
theorem notfound_redirect_response (key p : String)
    (h : headerValueValid p = true) :
    s3_object_response GetObjectResult.noSuchKey key (some p) =
      Except.ok ⟨302, [("Content-Type", "text/plain"), ("Location", p)],
        strBytes "Found"⟩ :=
  s3_nsk_some_valid key p h

/-- Witness for claim C2 at the spec's example redirect path. -/
theorem notfound_redirect_response_witness :
    headerValueValid "/404.html" = true ∧
    s3_object_response GetObjectResult.noSuchKey "k" (some "/404.html") =
      Except.ok ⟨302, [("Content-Type", "text/plain"), ("Location", "/404.html")],
        strBytes "Found"⟩ :=
  ⟨by decide, notfound_redirect_response "k" "/404.html" (by decide)⟩

/-- Claim C3: a NotFound outcome without a configured redirect path yields
exactly the easy_response 404 result: same status, same headers, same
body. -/
theorem notfound_no_redirect_is_404 (key : String) :
    s3_object_response GetObjectResult.noSuchKey key none = easy_response 404 ∧
    easy_response 404 =
      Except.ok ⟨404, [("Content-Type", "text/plain")], strBytes "Not Found"⟩ :=
  ⟨rfl, rfl⟩

/-- Claim C4: every TransientError outcome yields the easy_response 500
result, for every redirect configuration. -/
theorem transient_error_is_500 (d key : String) (r : Option String) :
    s3_object_response (GetObjectResult.otherError d) key r = easy_response 500 ∧
    easy_response 500 =
      Except.ok ⟨500, [("Content-Type", "text/plain")],
        strBytes "Internal Server Error"⟩ :=
  ⟨rfl, rfl⟩

/-- Claim C5: easy_response never fails; for every code it returns status
= code with Content-Type text/plain and the fixed body for 200, 400, 404,
405 and 500, and body "Unknown" for every other code. -/
theorem easy_response_total (code : Nat) :
    easy_response code =
      Except.ok ⟨code, [("Content-Type", "text/plain")], strBytes (statusBody code)⟩ ∧
    statusBody 200 = "OK" ∧ statusBody 400 = "Bad Request" ∧
    statusBody 404 = "Not Found" ∧ statusBody 405 = "Method Not Allowed" ∧
    statusBody 500 = "Internal Server Error" ∧
    (code ≠ 200 → code ≠ 400 → code ≠ 404 → code ≠ 405 → code ≠ 500 →
      statusBody code = "Unknown") := by
  refine ⟨easy_response_eq code, rfl, rfl, rfl, rfl, rfl, ?_⟩
  intro h1 h2 h3 h4 h5
  simp [statusBody, h1, h2, h3, h4, h5]

/-- Witness for claim C5 at a code outside the enumerated set. -/
theorem easy_response_total_witness :
    easy_response 418 =
      Except.ok ⟨418, [("Content-Type", "text/plain")], strBytes (statusBody 418)⟩ ∧
    statusBody 418 = "Unknown" :=
  ⟨(easy_response_total 418).1,
   (easy_response_total 418).2.2.2.2.2.2 (by decide) (by decide) (by decide)
     (by decide) (by decide)⟩

/-- Claim C6 counterexample: with a configured redirect path containing a
newline (an invalid header value), the NotFound outcome surfaces the
builder error to the caller instead of mapping it to the easy_response 500
result. -/
theorem malformed_redirect_not_500 :
    s3_object_response GetObjectResult.noSuchKey "k" (some "/a\nb") =
      Except.error "invalid header value" ∧
    s3_object_response GetObjectResult.noSuchKey "k" (some "/a\nb") ≠
      easy_response 500 := by
  constructor
  · rfl
  · intro h
    rw [easy_response_eq 500] at h
    exact Except.noConfusion h

/-- Claim C6 (amended): the only failing path of s3_object_response is a
NotFound outcome whose configured redirect path is an invalid header
value; that failure is propagated to the caller as the builder error, not
mapped to 500.  Every other outcome yields a valid response. -/
theorem object_response_error_characterization (o : GetObjectResult)
    (key : String) (r : Option String) (e : String)
    (h : s3_object_response o key r = Except.error e) :
    o = GetObjectResult.noSuchKey ∧ e = "invalid header value" ∧
    ∃ p, r = some p ∧ headerValueValid p = false := by
  cases o with
  | found b =>
    rw [s3_found_eq] at h
    exact Except.noConfusion h
  | collectError d =>
    rw [s3_collect_eq, easy_response_eq] at h
    exact Except.noConfusion h
  | otherError d =>
    rw [s3_other_eq, easy_response_eq] at h
    exact Except.noConfusion h
  | noSuchKey =>
    cases r with
    | none =>
      rw [s3_nsk_none, easy_response_eq] at h
      exact Except.noConfusion h
    | some p =>
      cases hv : headerValueValid p with
      | true =>
        rw [s3_nsk_some_valid key p hv] at h
        exact Except.noConfusion h
      | false =>
        rw [s3_nsk_some_invalid key p hv] at h
        injection h with he
        exact ⟨rfl, he.symm, p, rfl, hv⟩

/-- Witness for claim C6's amended theorem at a redirect path holding a
NUL character. -/
theorem object_response_error_characterization_witness :
    GetObjectResult.noSuchKey = GetObjectResult.noSuchKey ∧
    "invalid header value" = "invalid header value" ∧
    ∃ p, (some "/a\x00b" : Option String) = some p ∧ headerValueValid p = false :=
  object_response_error_characterization GetObjectResult.noSuchKey "k"
    (some "/a\x00b") "invalid header value" rfl

/-- Claim C7 counterexample: easy_response applied to the generic code 302
yields a redirect-status response with a non-empty body and no Location
header. -/
theorem easy_302_lacks_location :
    easy_response 302 =
      Except.ok ⟨302, [("Content-Type", "text/plain")], strBytes "Unknown"⟩ ∧
    hasHeader ⟨302, [("Content-Type", "text/plain")], strBytes "Unknown"⟩
      "Location" = false ∧
    strBytes "Unknown" ≠ [] :=
  ⟨rfl, by decide, by decide⟩

/-- Claim C7 (amended): every response produced by easy_response or
s3_object_response carries a Content-Type header whenever its body is
non-empty, and every redirect (302) response produced by
s3_object_response carries a Location header; easy_response itself adds no
Location header even for code 302. -/
theorem response_header_invariants (c : Nat) (o : GetObjectResult)
    (key : String) (r : Option String) (resp : Response)
    (h : easy_response c = Except.ok resp ∨
      s3_object_response o key r = Except.ok resp) :
    (resp.body ≠ [] → hasHeader resp "Content-Type" = true) ∧
    (s3_object_response o key r = Except.ok resp → resp.status = 302 →
      hasHeader resp "Location" = true) := by
  have hs3 : ∀ hr : s3_object_response o key r = Except.ok resp,
      (hasHeader resp "Content-Type" = true) ∧
      (resp.status = 302 → hasHeader resp "Location" = true) := by
    intro hr
    cases o with
    | found b =>
      rw [s3_found_eq] at hr
      injection hr with hr
      subst hr
      exact ⟨rfl, fun h302 => by simp at h302⟩
    | collectError d =>
      rw [s3_collect_eq, easy_response_eq] at hr
      injection hr with hr
      subst hr
      exact ⟨rfl, fun h302 => by simp at h302⟩
    | otherError d =>
      rw [s3_other_eq, easy_response_eq] at hr
      injection hr with hr
      subst hr
      exact ⟨rfl, fun h302 => by simp at h302⟩
    | noSuchKey =>
      cases r with
      | none =>
        rw [s3_nsk_none, easy_response_eq] at hr
        injection hr with hr
        subst hr
        exact ⟨rfl, fun h302 => by simp at h302⟩
      | some p =>
        cases hv : headerValueValid p with
        | true =>
          rw [s3_nsk_some_valid key p hv] at hr
          injection hr with hr
          subst hr
          exact ⟨rfl, fun _ => rfl⟩
        | false =>
          rw [s3_nsk_some_invalid key p hv] at hr
          exact Except.noConfusion hr
  constructor
  · intro hbody
    cases h with
    | inl he =>
      rw [easy_response_eq] at he
      injection he with he
      subst he
      rfl
    | inr hr => exact (hs3 hr).1
  · intro hr h302
    exact (hs3 hr).2 h302

/-- Witness for claim C7's amended theorem at the NotFound redirect
response. -/
theorem response_header_invariants_witness :
    (strBytes "Found" ≠ [] →
      hasHeader ⟨302, [("Content-Type", "text/plain"), ("Location", "/404.html")],
        strBytes "Found"⟩ "Content-Type" = true) ∧
    (s3_object_response GetObjectResult.noSuchKey "k" (some "/404.html") =
        Except.ok ⟨302, [("Content-Type", "text/plain"), ("Location", "/404.html")],
          strBytes "Found"⟩ →
      (302 : Nat) = 302 →
      hasHeader ⟨302, [("Content-Type", "text/plain"), ("Location", "/404.html")],
        strBytes "Found"⟩ "Location" = true) :=
  response_header_invariants 200 GetObjectResult.noSuchKey "k" (some "/404.html")
    ⟨302, [("Content-Type", "text/plain"), ("Location", "/404.html")],
      strBytes "Found"⟩ (Or.inr rfl)

/-- Claim C8: the runtime joins all listeners, waiting for both to
terminate and collecting one outcome per listener; each listener's
reported outcome is its own, unaffected by the other listener's steps or
failure. -/
theorem runtime_join_collects_outcomes (l1 l2 : Listener) :
    mainJoin l1 l2 = some (l1.outcome, l2.outcome) := by
  unfold mainJoin
  exact joinRun_complete (l1.steps + l2.steps) l1.steps l2.steps
    (l1.outcome, l2.outcome) (by omega) (by omega)

/-- Claim C9: the response builders are deterministic functions of their
inputs; identical inputs produce identical responses. -/
theorem builders_deterministic (c1 c2 : Nat) (o1 o2 : GetObjectResult)
    (k1 k2 : String) (r1 r2 : Option String)
    (hc : c1 = c2) (ho : o1 = o2) (hk : k1 = k2) (hr : r1 = r2) :
    easy_response c1 = easy_response c2 ∧
    s3_object_response o1 k1 r1 = s3_object_response o2 k2 r2 := by
  subst hc; subst ho; subst hk; subst hr
  exact ⟨rfl, rfl⟩

/-- Witness for claim C9 at concrete identical inputs. -/
theorem builders_deterministic_witness :
    easy_response 200 = easy_response 200 ∧
    s3_object_response (GetObjectResult.found [1, 2]) "index.html" none =
      s3_object_response (GetObjectResult.found [1, 2]) "index.html" none :=
  builders_deterministic 200 200 (GetObjectResult.found [1, 2])
    (GetObjectResult.found [1, 2]) "index.html" "index.html" none none
    rfl rfl rfl rfl

/-- Claim C10: a failure while collecting the streamed object body after a
successful get is mapped to the easy_response 500 result, for every key
and redirect configuration. -/
theorem collect_failure_is_500 (d key : String) (r : Option String) :
    s3_object_response (GetObjectResult.collectError d) key r = easy_response 500 ∧
    easy_response 500 =
      Except.ok ⟨500, [("Content-Type", "text/plain")],
        strBytes "Internal Server Error"⟩ :=
  ⟨rfl, rfl⟩
